import Mathlib

/-
Shallow embedding of the real-time voice interaction engine of the E4A
learning platform (src/frontend/src/pages/VoiceAssistantPage.jsx).

Numbers: sample values are modelled as rationals; the JavaScript
DataView.setInt16 integer conversion (truncation toward zero) is modelled
explicitly by jsTrunc, and Math.round by Mathlib round (both are
floor (x + 1/2)).
-/

namespace E4A

/-! ## PCM codec (VoiceAssistantPage.jsx lines 88-97 and 120-135) -/

/-- Truncation toward zero, as the ECMAScript ToIntegerOrInfinity step of
DataView.setInt16 performs it on an in-range value. -/
def jsTrunc (q : ℚ) : ℤ := if q < 0 then ⌈q⌉ else ⌊q⌋

/-- The clamp Math.max(-1, Math.min(1, x)) of floatTo16BitPCM (line 93). -/
def clamp1 (x : ℚ) : ℚ := max (-1) (min 1 x)

/-- One sample of floatTo16BitPCM (line 94):
s < 0 ? s * 0x8000 : s * 0x7fff, written little-endian by setInt16. -/
def encodeSample (x : ℚ) : ℤ :=
  let s := clamp1 x
  jsTrunc (if s < 0 then s * 32768 else s * 32767)

/-- floatTo16BitPCM (lines 88-97) on a whole buffer. -/
def floatTo16BitPCM (xs : List ℚ) : List ℤ := xs.map encodeSample

/-- The inbound decode of playAudio (lines 129-132): little-endian Int16
read, divided by 32768. -/
def decodeSample (i : ℤ) : ℚ := (i : ℚ) / 32768

/-- playAudio's decode on a whole buffer. -/
def decodePCM (is0 : List ℤ) : List ℚ := is0.map decodeSample

/-! ## Capture resampler (VoiceAssistantPage.jsx lines 662-675) -/

/-- The transport's fixed target rate (line 662). -/
def targetSampleRate : ℕ := 24000

/-- Math.round(i * ratio) with ratio = sourceSampleRate / targetSampleRate
(line 671).  Mathlib round is floor (x + 1/2), exactly Math.round. -/
def resampleIndex (S i : ℕ) : ℤ :=
  round ((i : ℚ) * ((S : ℚ) / (targetSampleRate : ℚ)))

/-- Math.round(inputData.length / ratio) (line 668). -/
def resampleLength (S L : ℕ) : ℤ :=
  round ((L : ℚ) / ((S : ℚ) / (targetSampleRate : ℚ)))

/-- The onaudioprocess resampling step (lines 665-675): nearest-sample
selection when the device rate differs from the target, a plain copy
otherwise. -/
def resampleFrame (S : ℕ) (input : List ℚ) : List ℚ :=
  if S ≠ targetSampleRate then
    (List.range (resampleLength S input.length).toNat).map
      (fun i => input.getD (resampleIndex S i).toNat 0)
  else input

/-! ## Conversation log and dialogue context (VoiceAssistantPage.jsx lines 15-65, 204-212) -/

/-- Message roles of the conversation log (addMessage callers). -/
inductive Role
  | user
  | assistant
  | system
  | error
deriving DecidableEq, Repr

/-- One ConversationMessage. The id (Date.now()) and timestamp fields are
ambient-clock values and are not modelled; insertion order carries the
ordering information. -/
structure ConvMsg where
  role : Role
  content : String
deriving DecidableEq, Repr

/-- currentContext.mode (line 33). -/
inductive Mode
  | idle
  | browsing
  | quiz
  | lesson
  | assignment
deriving DecidableEq, Repr

/-- A lesson payload as handleContextUpdate reads it: data.lesson with its
optional audio_url field. Other lesson fields are irrelevant to this core
and folded into the title. -/
structure Lesson where
  title : String
  audio_url : Option String
deriving DecidableEq, Repr

/-- pendingConfirmation (lines 246-257 and 350-358): either a quiz answer
awaiting yes/no, or a submission awaiting confirmation. -/
inductive PendingConf
  | quizAnswer (questionIndex : ℕ) (answer : String) (answerText : Option String)
  | submission (submissionType : String) (submissionData : String)
deriving DecidableEq, Repr

/-- The JavaScript object-spread update of quizAnswers
(lines 263-266): existing key overwritten in place, new key appended. -/
def objSet (m : List (ℕ × String)) (k : ℕ) (v : String) : List (ℕ × String) :=
  if m.any (fun p => p.1 = k) then
    m.map (fun p => if p.1 = k then (k, v) else p)
  else m ++ [(k, v)]

/-- currentContext (lines 32-42). Course, quiz and assignment payloads are
opaque to this core and modelled as strings. -/
structure Ctx where
  mode : Mode
  course : Option String
  lessonData : Option Lesson
  quiz : Option String
  assignment : Option String
  quizQuestions : List String
  currentQuestionIndex : ℕ
  quizAnswers : List (ℕ × String)
  pendingConfirmation : Option PendingConf
deriving DecidableEq, Repr

/-- displayContent shapes (the setDisplayContent call sites). -/
inductive DisplayContent
  | quizView (quiz : String) (questions : Option (List String)) (currentIndex : ℕ)
  | quizResult (score total : ℕ) (passed : Bool) (answers : List (ℕ × String))
  | lessonView (lessonData : Lesson)
  | assignmentView (assignment : String)
  | submissionResult (success : Bool) (message result : String)
  | coursesView (courses enrolled : List String)
  | progressView (progress : String)
  | enrollmentResult (success : Bool) (course message : String)
  | assignmentsView (assignments : List String)
  | quizzesView (quizzes : List String)
  | updateContent (content : String)
deriving DecidableEq, Repr

/-- Outbound protocol messages (the wsRef.current.send call sites).
Audio payloads are carried as their decoded sample lists. -/
inductive OutMsg
  | inputAudioBufferAppend (samples : List ℤ)
  | inputAudioBufferCommit
  | responseCancel
  | conversationItemCreate (text : String)
  | responseCreate
deriving DecidableEq, Repr

/-- The tagged context-update actions of handleContextUpdate
(lines 215-426). -/
inductive CtxAction
  | startQuiz (quiz : String) (questions : Option (List String))
  | showQuestion (questionIndex : ℕ)
  | pendingAnswer (questionIndex : ℕ) (answer : String) (answerText : Option String)
  | answerConfirmed (questionIndex : ℕ) (answer : String)
  | answerCancelled
  | quizCompleted (correct total : ℕ) (passed : Bool) (answers : List (ℕ × String))
  | startLesson (lessonData : Lesson) (has_audio : Bool)
  | startAssignment (assignment : String)
  | confirmSubmission (submissionType submissionData : String)
  | submissionComplete (success : Bool) (message result : String)
  | showCourses (courses enrolled : List String)
  | showProgress (progress : String)
  | enrollmentComplete (success : Bool) (course message : String)
  | showAssignments (assignments : List String)
  | showQuizzes (quizzes : List String)
  | navigateTo (url : String)
  | clearDisplay
  | unknownAction (action : String)
deriving DecidableEq, Repr

/-- The status carried by a response.done event (lines 515-538): success,
a rate-limit failure (with the retry-after seconds the regex may extract
from the free-text message), or another failure. -/
inductive RespStatus
  | ok
  | failedRateLimit (retryAfterSecs : Option ℕ)
  | failedOther (message : String)
deriving DecidableEq, Repr

/-- The whole session state of the VoiceAssistantPage component: React
state, the refs that shadow it, and the externally observable effects
(sent messages, stopped playback handles, navigations). The queue holds
decoded sample lists; active playback sources are tracked by numeric
handle. -/
structure AppState where
  isConnected : Bool
  isConnecting : Bool
  connectionError : Option String
  isListening : Bool
  isSpeaking : Bool
  isProcessing : Bool
  rateLimitWait : ℕ
  messages : List ConvMsg
  currentTranscript : String
  aiTranscript : String
  currentContext : Ctx
  displayContent : Option DisplayContent
  lessonAudioPlaying : Bool
  aiPaused : Bool
  pendingLessonAudio : Option String
  readyToPlayLessonAudio : Bool
  pendingLessonAudioRef : Option String
  isListeningRef : Bool
  audioPlaybackTime : ℚ
  audioQueue : List (List ℤ)
  activeSources : List ℕ
  nextSourceId : ℕ
  wsOpen : Bool
  sent : List OutMsg
  stopped : List ℕ
  navigations : List String
deriving DecidableEq, Repr

/-! ## Operations (VoiceAssistantPage.jsx lines 120-812) -/

/-- addMessage (lines 204-212): append-only conversation log. -/
def addMessage (role : Role) (content : String) (s : AppState) : AppState :=
  { s with messages := s.messages ++ [{ role := role, content := content }] }

/-- interruptAudio (lines 159-184): stop every active source, clear the
queue, reset the playback cursor, drop the speaking flag, send
response.cancel when the socket is open. -/
def interruptAudio (s : AppState) : AppState :=
  { s with
    stopped := s.stopped ++ s.activeSources,
    activeSources := [],
    audioQueue := [],
    audioPlaybackTime := 0,
    isSpeaking := false,
    sent := s.sent ++ (if s.wsOpen then [OutMsg.responseCancel] else []) }

/-- audioBuffer.duration for a decoded chunk at the fixed 24 kHz output
rate (line 134). -/
def duration (chunk : List ℤ) : ℚ := (chunk.length : ℚ) / 24000

/-- The scheduled start time Math.max(currentTime, audioPlaybackTimeRef)
of playAudio (line 138). -/
def scheduledStart (s : AppState) (now : ℚ) : ℚ := max now s.audioPlaybackTime

/-- playAudio (lines 120-156): schedule one decoded chunk at
max(now, nextFree), track the source handle, advance the cursor to
start + duration. -/
def playAudio (chunk : List ℤ) (now : ℚ) (s : AppState) : AppState :=
  let start := scheduledStart s now
  { s with
    activeSources := s.activeSources ++ [s.nextSourceId],
    nextSourceId := s.nextSourceId + 1,
    audioPlaybackTime := start + duration chunk }

/-- processAudioQueue (lines 187-196): mark speaking and drain the queue
through playAudio.  The audio-context clock reading is a parameter. -/
def processAudioQueue (now : ℚ) (s : AppState) : AppState :=
  if s.audioQueue = [] then s
  else s.audioQueue.foldl (fun t c => playAudio c now t)
    { s with isSpeaking := true, audioQueue := [] }

/-- resetAudioPlayback (lines 199-202). -/
def resetAudioPlayback (s : AppState) : AppState :=
  { s with audioPlaybackTime := 0, isSpeaking := false }

/-- startAudioCapture (lines 628-695), success path: the ref and the state
flag both become true.  The permission-denied path leaves both false and
only sets connectionError; device teardown details live outside the
modelled state. -/
def startAudioCapture (s : AppState) : AppState :=
  { s with isListeningRef := true, isListening := true }

/-- stopAudioCapture (lines 698-718): drop the ref and the flag, release
the device, and send input_audio_buffer.commit when the socket is open. -/
def stopAudioCapture (s : AppState) : AppState :=
  { s with
    isListeningRef := false,
    isListening := false,
    sent := s.sent ++ (if s.wsOpen then [OutMsg.inputAudioBufferCommit] else []) }

/-- connect (lines 572-612): an early return when the socket is already
open, otherwise mark connecting and clear the error.  The socket opens
asynchronously; isConnected is only set by session.created. -/
def connectWs (s : AppState) : AppState :=
  if s.wsOpen then s else { s with isConnecting := true, connectionError := none }

/-- stopLessonAudio (lines 721-728). -/
def stopLessonAudio (s : AppState) : AppState :=
  { s with lessonAudioPlaying := false }

/-- playPendingLessonAudio (lines 731-768): a no-op without a pending URL,
otherwise clear readyToPlay, mark narration playing and log a system
message. -/
def playPendingLessonAudio (s : AppState) : AppState :=
  match s.pendingLessonAudio with
  | none => s
  | some _ =>
    addMessage Role.system "Playing lesson audio..."
      { s with readyToPlayLessonAudio := false, lessonAudioPlaying := true }

/-- The audio.onended handler of playPendingLessonAudio (lines 741-748). -/
def lessonAudioEnded (s : AppState) : AppState :=
  addMessage Role.system "Lesson audio finished. Press Space to resume voice interaction."
    { s with
      lessonAudioPlaying := false,
      aiPaused := false,
      pendingLessonAudio := none,
      pendingLessonAudioRef := none }

/-- The audio.onerror handler of playPendingLessonAudio (lines 750-758). -/
def lessonAudioErrored (s : AppState) : AppState :=
  addMessage Role.error "Failed to play lesson audio."
    { s with
      lessonAudioPlaying := false,
      aiPaused := false,
      pendingLessonAudio := none,
      pendingLessonAudioRef := none }

/-- resumeAI (lines 771-778). -/
def resumeAI (s : AppState) : AppState :=
  addMessage Role.system "Voice assistant resumed. You can speak now."
    { stopLessonAudio s with
      aiPaused := false,
      pendingLessonAudio := none,
      pendingLessonAudioRef := none,
      readyToPlayLessonAudio := false }

/-- toggleListening (lines 781-812): the single user toggle action. -/
def toggleListening (s : AppState) : AppState :=
  if s.readyToPlayLessonAudio && s.pendingLessonAudio.isSome then
    playPendingLessonAudio s
  else if s.aiPaused then
    let s2 := resumeAI s
    startAudioCapture (if s.isConnected then s2 else connectWs s2)
  else
    let s1 := if s.lessonAudioPlaying then stopLessonAudio s else s
    if s1.isListening then stopAudioCapture s1
    else startAudioCapture (if s1.isConnected then s1 else connectWs s1)

/-- The VITE_API_URL environment constant; its value is not fixed by the
source. -/
def viteApiUrl : String := "http://localhost:8000"

/-- The audio-URL completion of the start_lesson branch (lines 314-316). -/
def mkAudioUrl (u : String) : String :=
  if u.startsWith "http" then u else viteApiUrl ++ u

/-- show_question also patches the display pointer (lines 240-243); the
spread only has visible effect on a quiz view. -/
def setDisplayIndex (d : Option DisplayContent) (i : ℕ) : Option DisplayContent :=
  match d with
  | some (DisplayContent.quizView q qs _) => some (DisplayContent.quizView q qs i)
  | other => other

/-- handleContextUpdate (lines 215-426). -/
def handleContextUpdate (a : CtxAction) (s : AppState) : AppState :=
  match a with
  | .startQuiz quiz questions =>
    { s with
      currentContext := { s.currentContext with
        mode := Mode.quiz,
        quiz := some quiz,
        quizQuestions := questions.getD [],
        currentQuestionIndex := 0,
        quizAnswers := [] },
      displayContent := some (DisplayContent.quizView quiz questions 0) }
  | .showQuestion i =>
    { s with
      currentContext := { s.currentContext with currentQuestionIndex := i },
      displayContent := setDisplayIndex s.displayContent i }
  | .pendingAnswer i ans ansText =>
    { s with currentContext := { s.currentContext with
        pendingConfirmation := some (PendingConf.quizAnswer i ans ansText) } }
  | .answerConfirmed i ans =>
    { s with currentContext := { s.currentContext with
        quizAnswers := objSet s.currentContext.quizAnswers i ans,
        pendingConfirmation := none } }
  | .answerCancelled =>
    { s with currentContext := { s.currentContext with pendingConfirmation := none } }
  | .quizCompleted correct total passed answers =>
    { s with
      displayContent := some (DisplayContent.quizResult correct total passed answers),
      currentContext := { s.currentContext with
        mode := Mode.idle, pendingConfirmation := none } }
  | .startLesson l hasAudio =>
    let s1 := { s with
      currentContext := { s.currentContext with
        mode := Mode.lesson, lessonData := some l },
      displayContent := some (DisplayContent.lessonView l) }
    match hasAudio, l.audio_url with
    | true, some u =>
      let url := mkAudioUrl u
      let s2 := { s1 with
        pendingLessonAudio := some url, pendingLessonAudioRef := some url }
      if s2.isListeningRef then
        { s2 with isListeningRef := false, isListening := false }
      else s2
    | _, _ => s1
  | .startAssignment a =>
    { s with
      currentContext := { s.currentContext with
        mode := Mode.assignment, assignment := some a },
      displayContent := some (DisplayContent.assignmentView a) }
  | .confirmSubmission ty payload =>
    { s with currentContext := { s.currentContext with
        pendingConfirmation := some (PendingConf.submission ty payload) } }
  | .submissionComplete success msg result =>
    { s with
      currentContext := { s.currentContext with
        mode := Mode.idle, pendingConfirmation := none },
      displayContent := some (DisplayContent.submissionResult success msg result) }
  | .showCourses cs en =>
    { s with displayContent := some (DisplayContent.coursesView cs en) }
  | .showProgress p =>
    { s with displayContent := some (DisplayContent.progressView p) }
  | .enrollmentComplete success course msg =>
    { s with displayContent := some (DisplayContent.enrollmentResult success course msg) }
  | .showAssignments as0 =>
    { s with displayContent := some (DisplayContent.assignmentsView as0) }
  | .showQuizzes qs =>
    { s with displayContent := some (DisplayContent.quizzesView qs) }
  | .navigateTo url =>
    if url ≠ "" then { s with navigations := s.navigations ++ [url] } else s
  | .clearDisplay =>
    { s with
      displayContent := none,
      currentContext := { s.currentContext with mode := Mode.idle } }
  | .unknownAction _ => s

/-! ## Event router (VoiceAssistantPage.jsx lines 429-569) -/

/-- The inbound message types the handleMessage switch dispatches on;
unhandled covers the default branch, which only logs. -/
inductive InboundMsg
  | sessionCreated
  | sessionUpdated
  | speechStarted
  | speechStopped
  | transcriptionCompleted (transcript : String)
  | transcriptionFailed
  | bufferCommitted
  | itemCreated
  | responseCreated
  | audioTranscriptDelta (delta : String)
  | audioTranscriptDone (transcript : String)
  | audioDelta (delta : Option (List ℤ))
  | responseAudioDone
  | functionCallArgsDone
  | responseDone (status : RespStatus)
  | contextUpdate (action : CtxAction)
  | displayUpdate (content : DisplayContent)
  | errorEvent (message : Option String)
  | unhandled (msgType : String)
deriving DecidableEq, Repr

/-- handleMessage (lines 429-569).  The audio-context clock reading used
by the audio-delta branch is the parameter now.  String payloads model
the JavaScript truthiness tests as comparison with the empty string. -/
def handleMessage (m : InboundMsg) (now : ℚ) (s : AppState) : AppState :=
  match m with
  | .sessionCreated =>
    addMessage Role.system
      "Voice assistant ready. Press Space or click the microphone to start speaking."
      { s with isConnected := true, isConnecting := false }
  | .sessionUpdated => s
  | .speechStarted =>
    { interruptAudio s with currentTranscript := "Listening..." }
  | .speechStopped =>
    { s with currentTranscript := "Processing...", isProcessing := true }
  | .transcriptionCompleted t =>
    if t ≠ "" then addMessage Role.user t { s with currentTranscript := "" } else s
  | .transcriptionFailed =>
    { s with currentTranscript := "", isProcessing := false }
  | .bufferCommitted => s
  | .itemCreated => s
  | .responseCreated => { s with isProcessing := true }
  | .audioTranscriptDelta d =>
    if d ≠ "" then { s with aiTranscript := s.aiTranscript ++ d } else s
  | .audioTranscriptDone t =>
    let s1 :=
      if s.aiTranscript ≠ "" ∨ t ≠ "" then
        addMessage Role.assistant (if t ≠ "" then t else s.aiTranscript)
          { s with aiTranscript := "" }
      else s
    { s1 with isProcessing := false }
  | .audioDelta d =>
    match d with
    | some chunk => processAudioQueue now { s with audioQueue := s.audioQueue ++ [chunk] }
    | none => s
  | .responseAudioDone => resetAudioPlayback s
  | .functionCallArgsDone => s
  | .responseDone status =>
    let s1 := { s with isProcessing := false }
    let s2 :=
      match status with
      | RespStatus.ok => s1
      | RespStatus.failedRateLimit w =>
        let waitTime := w.getD 5
        addMessage Role.system
          ("Rate limit reached. Please wait " ++ toString waitTime ++
            " seconds before speaking again.")
          { s1 with rateLimitWait := waitTime }
      | RespStatus.failedOther msg => addMessage Role.error msg s1
    if s2.pendingLessonAudioRef.isSome then
      addMessage Role.system "Press Space to start the lesson audio."
        { s2 with readyToPlayLessonAudio := true, aiPaused := true }
    else s2
  | .contextUpdate a => handleContextUpdate a s
  | .displayUpdate c => { s with displayContent := some c }
  | .errorEvent msg =>
    let text :=
      match msg with
      | some m0 => if m0 = "" then "An error occurred" else m0
      | none => "An error occurred"
    { addMessage Role.error text s with isProcessing := false }
  | .unhandled _ => s

/-- The outer try/catch of handleMessage: a raw frame whose JSON parse
fails reaches no branch and the session state is untouched. -/
def handleRaw (parsed : Option InboundMsg) (now : ℚ) (s : AppState) : AppState :=
  match parsed with
  | some m => handleMessage m now s
  | none => s

/-! ## Concrete states and chunk-sequence runner -/

/-- The initial context of useState (lines 32-42). -/
def initialCtx : Ctx :=
  { mode := Mode.idle
    course := none
    lessonData := none
    quiz := none
    assignment := none
    quizQuestions := []
    currentQuestionIndex := 0
    quizAnswers := []
    pendingConfirmation := none }

/-- The component state right after mount (lines 15-65). -/
def initialState : AppState :=
  { isConnected := false
    isConnecting := false
    connectionError := none
    isListening := false
    isSpeaking := false
    isProcessing := false
    rateLimitWait := 0
    messages := []
    currentTranscript := ""
    aiTranscript := ""
    currentContext := initialCtx
    displayContent := none
    lessonAudioPlaying := false
    aiPaused := false
    pendingLessonAudio := none
    readyToPlayLessonAudio := false
    pendingLessonAudioRef := none
    isListeningRef := false
    audioPlaybackTime := 0
    audioQueue := []
    activeSources := []
    nextSourceId := 0
    wsOpen := false
    sent := []
    stopped := []
    navigations := [] }

/-- A state with the socket open, as reached after session.created. -/
def connectedState : AppState :=
  handleMessage InboundMsg.sessionCreated 0 { initialState with wsOpen := true }

/-- A lesson with a narration track, used in concrete runs. -/
def demoLesson : Lesson := { title := "lesson", audio_url := some "http://x/a.mp3" }

/-- The scheduled start times produced by pushing a sequence of decoded
chunks (each with the clock reading at its arrival) through playAudio. -/
def playChunks (s : AppState) : List (List ℤ × ℚ) → List ℚ
  | [] => []
  | (c, now) :: rest => scheduledStart s now :: playChunks (playAudio c now s) rest

/-! ## Claim theorems -/

/-- Claim C1: live capture and lesson narration playback are claimed to be
mutually exclusive at every reachable instant.  The code violates this:
from a connected state, the run start_lesson(hasAudio=true) , user toggle,
response.done, user toggle ends with the microphone capturing while the
narration is playing, because the toggle taken during the handoff wait
restarts capture and playPendingLessonAudio does not stop it. -/
theorem mutual_exclusion_violation :
    (toggleListening (handleMessage (InboundMsg.responseDone RespStatus.ok) 0
      (toggleListening (handleContextUpdate
        (CtxAction.startLesson demoLesson true) connectedState)))).isListening = true
    ∧ (toggleListening (handleMessage (InboundMsg.responseDone RespStatus.ok) 0
      (toggleListening (handleContextUpdate
        (CtxAction.startLesson demoLesson true) connectedState)))).lessonAudioPlaying = true :=
  ⟨rfl, rfl⟩

/-- Claim C4: interruptAudio stops every handle in the active set, empties
the queue of unplayed chunks, resets the scheduling cursor to 0, sends
response.cancel exactly when the socket is open, and is idempotent on the
(active set, queue, cursor) state. -/
theorem interrupt_resets_and_idempotent (s : AppState) :
    (interruptAudio s).activeSources = []
    ∧ (interruptAudio s).stopped = s.stopped ++ s.activeSources
    ∧ (interruptAudio s).audioQueue = []
    ∧ (interruptAudio s).audioPlaybackTime = 0
    ∧ (interruptAudio s).sent
        = s.sent ++ (if s.wsOpen then [OutMsg.responseCancel] else [])
    ∧ (interruptAudio (interruptAudio s)).activeSources = (interruptAudio s).activeSources
    ∧ (interruptAudio (interruptAudio s)).audioQueue = (interruptAudio s).audioQueue
    ∧ (interruptAudio (interruptAudio s)).audioPlaybackTime
        = (interruptAudio s).audioPlaybackTime :=
  ⟨rfl, rfl, rfl, rfl, rfl, rfl, rfl, rfl⟩

/-- Claim C5: from every initial dialogue context, start_quiz then
pending_answer(0, B) then answer_cancelled leaves answers empty and no
pending confirmation; start_quiz then pending_answer(0, B) then
answer_confirmed(0, B) yields answers containing exactly 0 maps to B and no
pending confirmation; and answer_cancelled never modifies answers. -/
theorem quiz_answer_confirm_cancel (s : AppState) (q : String)
    (qs : Option (List String)) (at0 : Option String) :
    ((handleContextUpdate CtxAction.answerCancelled
        (handleContextUpdate (CtxAction.pendingAnswer 0 "B" at0)
          (handleContextUpdate (CtxAction.startQuiz q qs) s))).currentContext.quizAnswers = []
      ∧ (handleContextUpdate CtxAction.answerCancelled
          (handleContextUpdate (CtxAction.pendingAnswer 0 "B" at0)
            (handleContextUpdate (CtxAction.startQuiz q qs) s))).currentContext.pendingConfirmation
          = none)
    ∧ ((handleContextUpdate (CtxAction.answerConfirmed 0 "B")
        (handleContextUpdate (CtxAction.pendingAnswer 0 "B" at0)
          (handleContextUpdate (CtxAction.startQuiz q qs) s))).currentContext.quizAnswers
          = [(0, "B")]
      ∧ (handleContextUpdate (CtxAction.answerConfirmed 0 "B")
          (handleContextUpdate (CtxAction.pendingAnswer 0 "B" at0)
            (handleContextUpdate (CtxAction.startQuiz q qs) s))).currentContext.pendingConfirmation
          = none)
    ∧ ∀ t : AppState,
        (handleContextUpdate CtxAction.answerCancelled t).currentContext.quizAnswers
          = t.currentContext.quizAnswers :=
  ⟨⟨rfl, rfl⟩, ⟨rfl, rfl⟩, fun _ => rfl⟩

/-- Claim C8 counterexample: the claim says the narration playback error
handler appends a system-role message inviting the user to resume; in the
code the onerror handler appends an error-role failure message instead. -/
theorem narration_error_role_counterexample :
    (lessonAudioErrored { connectedState with
        pendingLessonAudio := some "u",
        lessonAudioPlaying := true,
        aiPaused := true }).messages.getLast?
      = some { role := Role.error, content := "Failed to play lesson audio." }
    ∧ Role.error ≠ Role.system := by
  refine ⟨?_, by decide⟩
  rfl

/-- Claim C8 as amended: both narration completion and narration playback
error clear the pending URL (state and ref) and the paused flag and stop
narration; completion appends a system-role message inviting the user to
resume voice interaction, while the error path appends an error-role
failure message. -/
theorem narration_end_error_cleanup (s : AppState) :
    ((lessonAudioEnded s).pendingLessonAudio = none
      ∧ (lessonAudioEnded s).pendingLessonAudioRef = none
      ∧ (lessonAudioEnded s).aiPaused = false
      ∧ (lessonAudioEnded s).lessonAudioPlaying = false
      ∧ (lessonAudioEnded s).messages = s.messages ++
          [{ role := Role.system,
             content := "Lesson audio finished. Press Space to resume voice interaction." }])
    ∧ ((lessonAudioErrored s).pendingLessonAudio = none
      ∧ (lessonAudioErrored s).pendingLessonAudioRef = none
      ∧ (lessonAudioErrored s).aiPaused = false
      ∧ (lessonAudioErrored s).lessonAudioPlaying = false
      ∧ (lessonAudioErrored s).messages = s.messages ++
          [{ role := Role.error, content := "Failed to play lesson audio." }]) :=
  ⟨⟨rfl, rfl, rfl, rfl, rfl⟩, ⟨rfl, rfl, rfl, rfl, rfl⟩⟩

/-- Claim C9: an inbound message of an unhandled type leaves the whole
session state unchanged, and a frame whose parse fails is caught by the
per-message handler and also leaves the state unchanged, so dispatch never
terminates the session. -/
theorem unknown_message_no_change (t : String) (now : ℚ) (s : AppState) :
    handleMessage (InboundMsg.unhandled t) now s = s
    ∧ handleRaw none now s = s :=
  ⟨rfl, rfl⟩

/-- Claim C2: from any session state whose listening ref and flag agree,
start_lesson with hasAudio=true and a narration URL force-stops capture;
the following response.done sets readyToPlay and leaves capture off; and
the next toggle begins narration playback and clears readyToPlay instead
of starting listening. -/
theorem lesson_handoff_run (s : AppState) (l : Lesson) (u : String) (now : ℚ)
    (hsync : s.isListeningRef = s.isListening) (hurl : l.audio_url = some u) :
    (handleContextUpdate (CtxAction.startLesson l true) s).isListening = false
    ∧ (handleMessage (InboundMsg.responseDone RespStatus.ok) now
        (handleContextUpdate (CtxAction.startLesson l true) s)).readyToPlayLessonAudio = true
    ∧ (handleMessage (InboundMsg.responseDone RespStatus.ok) now
        (handleContextUpdate (CtxAction.startLesson l true) s)).isListening = false
    ∧ (toggleListening (handleMessage (InboundMsg.responseDone RespStatus.ok) now
        (handleContextUpdate (CtxAction.startLesson l true) s))).lessonAudioPlaying = true
    ∧ (toggleListening (handleMessage (InboundMsg.responseDone RespStatus.ok) now
        (handleContextUpdate (CtxAction.startLesson l true) s))).readyToPlayLessonAudio = false
    ∧ (toggleListening (handleMessage (InboundMsg.responseDone RespStatus.ok) now
        (handleContextUpdate (CtxAction.startLesson l true) s))).isListening = false := by
  cases hb : s.isListeningRef with
  | true =>
    refine ⟨?_, ?_, ?_, ?_, ?_, ?_⟩ <;>
      simp [handleContextUpdate, handleMessage, toggleListening,
        playPendingLessonAudio, addMessage, hurl, hb]
  | false =>
    have hl : s.isListening = false := hsync ▸ hb
    refine ⟨?_, ?_, ?_, ?_, ?_, ?_⟩ <;>
      simp [handleContextUpdate, handleMessage, toggleListening,
        playPendingLessonAudio, addMessage, hurl, hb, hl]

/-- Witness for claim C2 at a concrete state and lesson. -/
theorem lesson_handoff_run_witness :
    (initialState.isListeningRef = initialState.isListening
      ∧ demoLesson.audio_url = some "http://x/a.mp3")
    ∧ (handleContextUpdate (CtxAction.startLesson demoLesson true) initialState).isListening
        = false :=
  ⟨⟨rfl, rfl⟩, (lesson_handoff_run initialState demoLesson "http://x/a.mp3" 0 rfl rfl).1⟩

/-- Each later chunk starts no earlier than the cursor the previous chunk
advanced: the helper induction behind claim C3. -/
theorem playChunks_chain (s : AppState) (chunks : List (List ℤ × ℚ)) (i : ℕ)
    (h : i + 1 < chunks.length) :
    (playChunks s chunks).getD i 0 + duration (chunks.getD i ([], 0)).1
      ≤ (playChunks s chunks).getD (i + 1) 0 := by
  induction chunks generalizing s i with
  | nil => simp at h
  | cons p rest ih =>
    obtain ⟨c, now⟩ := p
    cases i with
    | zero =>
      cases rest with
      | nil => simp at h
      | cons p2 rest2 =>
        obtain ⟨c2, now2⟩ := p2
        simp only [playChunks, List.getD_cons_zero, List.getD_cons_succ]
        exact le_max_right _ _
    | succ j =>
      have h2 : j + 1 < rest.length := by
        simpa [Nat.succ_lt_succ_iff] using h
      simpa [playChunks] using ih (playAudio c now s) j h2

/-- Claim C3: for every sequence of inbound audio chunks pushed through
playAudio (each scheduled at max(currentTime, nextFree), the cursor then
advanced to start + duration), start times satisfy
start n-1 + duration n-1 <= start n, hence are non-decreasing: gapless,
non-overlapping playback. -/
theorem playback_gapless (s : AppState) (chunks : List (List ℤ × ℚ)) (i : ℕ)
    (h : i + 1 < chunks.length) :
    (playChunks s chunks).getD i 0 + duration (chunks.getD i ([], 0)).1
        ≤ (playChunks s chunks).getD (i + 1) 0
    ∧ (playChunks s chunks).getD i 0 ≤ (playChunks s chunks).getD (i + 1) 0 := by
  have key := playChunks_chain s chunks i h
  have hd : 0 ≤ duration (chunks.getD i ([], 0)).1 := by
    unfold duration; positivity
  exact ⟨key, by linarith⟩

/-- Two concrete chunks, both arriving at clock time 0. -/
def demoChunks : List (List ℤ × ℚ) := [([1, 2], 0), ([3], 0)]

/-- Witness for claim C3 on two concrete chunks. -/
theorem playback_gapless_witness :
    (0 + 1 < demoChunks.length)
    ∧ (playChunks initialState demoChunks).getD 0 0
        + duration (demoChunks.getD 0 ([], 0)).1
        ≤ (playChunks initialState demoChunks).getD 1 0 :=
  ⟨by norm_num [demoChunks],
    (playback_gapless initialState demoChunks 0 (by norm_num [demoChunks])).1⟩

/-- Claim C6 counterexample: the claim bounds the round-trip error by one
quantization step 1/32768 for every sample, but the positive half is
scaled by 32767 and decoded by 32768, so the sample 65533/65534 (inside
[0, 1]) encodes to 32766 and misses by about 1.5/32768. -/
theorem pcm_roundtrip_counterexample :
    decodePCM (floatTo16BitPCM [(65533 : ℚ)/65534]) = [(32766 : ℚ)/32768]
    ∧ (1 : ℚ)/32768 < |(65533 : ℚ)/65534 - (32766 : ℚ)/32768| := by
  constructor
  · show [decodeSample (encodeSample ((65533 : ℚ)/65534))] = [(32766 : ℚ)/32768]
    norm_num [encodeSample, clamp1, jsTrunc, decodeSample]
  · rw [abs_of_pos (by norm_num : (0 : ℚ) < (65533 : ℚ)/65534 - 32766/32768)]
    norm_num

/-- Claim C6 as amended: for every sample in [-1, 1] the encode-decode
round trip is within two quantization steps (strictly below 2/32768); the
all-zero and -1.0-clipped samples are recovered exactly and the
+1.0-clipped sample within one step 1/32768. -/
theorem pcm_roundtrip_two_steps (x : ℚ) (h1 : -1 ≤ x) (h2 : x ≤ 1) :
    |x - decodeSample (encodeSample x)| < 2/32768
    ∧ decodeSample (encodeSample 0) = 0
    ∧ decodeSample (encodeSample 1) = 32767/32768
    ∧ |(1 : ℚ) - decodeSample (encodeSample 1)| ≤ 1/32768
    ∧ decodeSample (encodeSample (-1)) = -1 := by
  have henc1 : decodeSample (encodeSample 1) = 32767/32768 := by
    norm_num [encodeSample, clamp1, jsTrunc, decodeSample]
  refine ⟨?_,
    by norm_num [encodeSample, clamp1, jsTrunc, decodeSample],
    henc1,
    by rw [henc1, abs_of_nonneg (by norm_num : (0 : ℚ) ≤ 1 - 32767/32768)]; norm_num,
    by norm_num [encodeSample, clamp1, jsTrunc, decodeSample, Int.ceil_neg]⟩
  have hc : clamp1 x = x := by
    unfold clamp1
    rw [min_eq_right h2, max_eq_right h1]
  show |x - decodeSample (jsTrunc (if clamp1 x < 0 then clamp1 x * 32768
      else clamp1 x * 32767))| < 2/32768
  rw [hc]
  unfold decodeSample jsTrunc
  rcases lt_or_le x 0 with hx | hx
  · rw [if_pos hx, if_pos (mul_neg_of_neg_of_pos hx (by norm_num))]
    have hle := Int.le_ceil (x * 32768)
    have hlt := Int.ceil_lt_add_one (x * 32768)
    rw [show x - (⌈x * 32768⌉ : ℚ)/32768 = (x * 32768 - ⌈x * 32768⌉)/32768 from by ring,
      abs_div, abs_of_pos (by norm_num : (0 : ℚ) < 32768),
      div_lt_div_iff_of_pos_right (by norm_num : (0 : ℚ) < 32768), abs_lt]
    constructor <;> linarith
  · rw [if_neg (not_lt.mpr hx),
      if_neg (not_lt.mpr (mul_nonneg hx (by norm_num)))]
    have hfl := Int.floor_le (x * 32767)
    have hlt := Int.lt_floor_add_one (x * 32767)
    have hnn : 0 ≤ x - (⌊x * 32767⌋ : ℚ)/32768 := by
      rw [sub_nonneg, div_le_iff₀ (by norm_num : (0 : ℚ) < 32768)]
      nlinarith
    rw [abs_of_nonneg hnn,
      show x - (⌊x * 32767⌋ : ℚ)/32768 = (x * 32768 - ⌊x * 32767⌋)/32768 from by ring,
      div_lt_div_iff_of_pos_right (by norm_num : (0 : ℚ) < 32768)]
    linarith

/-- Witness for claim C6 at the sample 1/2. -/
theorem pcm_roundtrip_two_steps_witness :
    (-1 ≤ (1 : ℚ)/2 ∧ (1 : ℚ)/2 ≤ 1)
    ∧ |(1 : ℚ)/2 - decodeSample (encodeSample ((1 : ℚ)/2))| < 2/32768 :=
  ⟨⟨by norm_num, by norm_num⟩,
    (pcm_roundtrip_two_steps (1/2) (by norm_num) (by norm_num)).1⟩

/-- Claim C7: the resampler output has length round(L / ratio) with each
output sample input[round(i * ratio)]; at 48 kHz source the frame count
is exactly halved with output i = input (2 i), and at a source rate equal
to the 24 kHz target the frame passes through unchanged. -/
theorem resample_halving_identity (input : List ℚ) (h : 2 ∣ input.length) :
    (resampleFrame 48000 input).length = input.length / 2
    ∧ resampleFrame 24000 input = input
    ∧ ∀ i, i < input.length / 2 →
        (resampleFrame 48000 input).getD i 0 = input.getD (2 * i) 0 := by
  obtain ⟨m, hm⟩ := h
  have hcast : ((48000 : ℕ) : ℚ) / ((24000 : ℕ) : ℚ) = 2 := by norm_num
  have hlen : resampleLength 48000 input.length = (m : ℤ) := by
    rw [resampleLength, targetSampleRate, hm, hcast]
    rw [show (((2 * m : ℕ) : ℚ)) / 2 = ((m : ℕ) : ℚ) from by push_cast; ring]
    exact round_natCast m
  have hidx : ∀ i : ℕ, resampleIndex 48000 i = ((2 * i : ℕ) : ℤ) := by
    intro i
    rw [resampleIndex, targetSampleRate, hcast]
    rw [show ((i : ℚ) * 2) = ((2 * i : ℕ) : ℚ) from by push_cast; ring]
    exact round_natCast _
  have hframe : resampleFrame 48000 input
      = (List.range m).map (fun i => input.getD (2 * i) 0) := by
    rw [resampleFrame, if_pos (by norm_num [targetSampleRate]), hlen]
    simp only [Int.toNat_natCast, hidx]
  have hhalf : input.length / 2 = m := by omega
  refine ⟨?_, ?_, ?_⟩
  · rw [hframe, List.length_map, List.length_range, hhalf]
  · rw [resampleFrame, if_neg (by norm_num [targetSampleRate])]
  · intro i hi
    rw [hhalf] at hi
    rw [hframe, List.getD_eq_getElem _ _ (by simpa using hi),
      List.getElem_map, List.getElem_range]

/-- Witness for claim C7 on a concrete four-sample frame. -/
theorem resample_halving_identity_witness :
    (2 ∣ ([0, 1/2, 1, -1] : List ℚ).length)
    ∧ (resampleFrame 48000 ([0, 1/2, 1, -1] : List ℚ)).length
        = ([0, 1/2, 1, -1] : List ℚ).length / 2
    ∧ resampleFrame 24000 ([0, 1/2, 1, -1] : List ℚ) = [0, 1/2, 1, -1] :=
  ⟨by norm_num,
    (resample_halving_identity [0, 1/2, 1, -1] (by norm_num)).1,
    (resample_halving_identity [0, 1/2, 1, -1] (by norm_num)).2.1⟩

/-- Claim C10: in the resampling loop, for every source rate of at least
the 24 kHz target and every frame length L, every accessed index
round(i * ratio) for i below the output length round(L / ratio) stays
strictly below L: no out-of-bounds read of the input frame. -/
theorem resample_index_in_bounds (S L i : ℕ) (hS : 24000 ≤ S)
    (hi : (i : ℤ) < resampleLength S L) :
    resampleIndex S i < (L : ℤ) := by
  have h24 : (0 : ℚ) < 24000 := by norm_num
  set r : ℚ := (S : ℚ) / 24000 with hr
  have hr1 : 1 ≤ r := by
    rw [hr, le_div_iff₀ h24, one_mul]
    exact_mod_cast hS
  have hrpos : (0 : ℚ) < r := lt_of_lt_of_le one_pos hr1
  have h1 : ((i : ℚ) + 1) ≤ (L : ℚ) / r + 1/2 := by
    rw [resampleLength, targetSampleRate, round_eq] at hi
    have h2 : (i : ℤ) + 1 ≤ ⌊(L : ℚ) / ((S : ℚ) / (24000 : ℚ)) + 1/2⌋ := hi
    have h3 := Int.le_floor.mp h2
    rw [← hr] at h3
    push_cast at h3
    linarith
  have h3 : (i : ℚ) * r ≤ (L : ℚ) - r/2 := by
    have hstep : (i : ℚ) ≤ (L : ℚ) / r - 1/2 := by linarith
    have := mul_le_mul_of_nonneg_right hstep (le_of_lt hrpos)
    calc (i : ℚ) * r ≤ ((L : ℚ) / r - 1/2) * r := this
      _ = (L : ℚ) - r/2 := by field_simp; ring
  rw [resampleIndex, targetSampleRate, round_eq, Int.floor_lt]
  push_cast
  rw [← hr]
  rcases eq_or_lt_of_le hr1 with heq | hlt
  · have h4 : (i : ℚ) ≤ (L : ℚ) - 1/2 := by
      rw [← heq] at h3
      simpa using h3
    have hiL : (i : ℚ) < (L : ℚ) := by linarith
    have hiL2 : i < L := by exact_mod_cast hiL
    have hiL3 : (i : ℚ) + 1 ≤ (L : ℚ) := by exact_mod_cast hiL2
    rw [← heq]
    linarith
  · linarith

/-- Witness for claim C10 at 48 kHz and the fixed 4096-sample frame. -/
theorem resample_index_in_bounds_witness :
    (24000 ≤ 48000 ∧ ((0 : ℕ) : ℤ) < resampleLength 48000 4096)
    ∧ resampleIndex 48000 0 < ((4096 : ℕ) : ℤ) :=
  ⟨⟨by norm_num, by norm_num [resampleLength, targetSampleRate, round_eq]⟩,
    resample_index_in_bounds 48000 4096 0 (by norm_num)
      (by norm_num [resampleLength, targetSampleRate, round_eq])⟩

end E4A
